import Mathlib

/-!
Verification of the planviz PTY session manager and agent streaming
protocol (Rust sources under src-tauri/src: pty.rs, agent.rs, chat.rs,
credentials.rs), shallowly embedded in Lean 4.

External effects (OS PTY allocation, process spawning, writes to the
child, event-bus emission, exit-status collection) are modelled as
explicit parameters holding the outcome the OS / event bus produced,
so every function here is a pure, executable translation of the
corresponding Rust function's control flow and state updates.
-/

deriving instance DecidableEq for Except

namespace Planviz

/-! ## Chat stream events (chat.rs: StreamEventType, PlanUpdate, StreamEvent) -/

/-- Stream event types, from chat.rs `StreamEventType`. -/
inductive StreamEventType where
  | messageStart
  | contentBlockStart
  | contentBlockDelta
  | contentBlockStop
  | messageStop
  | planUpdate
deriving DecidableEq, Repr

/-- Plan update payload, from chat.rs `PlanUpdate`. -/
structure PlanUpdatePayload where
  nodeId : String
  status : Option String
  content : Option String
deriving DecidableEq, Repr

/-- Stream event payload, from chat.rs `StreamEvent`. -/
structure StreamEvent where
  eventType : StreamEventType
  content : Option String
  planUpdate : Option PlanUpdatePayload
deriving DecidableEq, Repr

/-! ## ANSI stripping (agent.rs: strip_ansi_codes) -/

/-- The ESC character `\x1b` that starts an ANSI escape sequence. -/
def escChar : Char := '\x1b'

/-- Core loop of agent.rs `strip_ansi_codes`: walks the characters with an
`in_escape` flag; inside an escape, characters are dropped until the first
ASCII-alphabetic character (which is also dropped and ends the escape);
outside an escape, ESC enters escape mode and every other character is kept. -/
def stripAnsiAux : Bool → List Char → List Char
  | true, [] => []
  | true, c :: rest =>
    if c.isAlpha then stripAnsiAux false rest else stripAnsiAux true rest
  | false, [] => []
  | false, c :: rest =>
    if c = escChar then stripAnsiAux true rest else c :: stripAnsiAux false rest

/-- agent.rs `strip_ansi_codes`. -/
def stripAnsiCodes (s : String) : String :=
  String.mk (stripAnsiAux false s.data)

/-! ## Mock chat backend (chat.rs: send_chat_message) -/

/-- Accumulator pass over the characters: maximal runs of non-whitespace. -/
def wordsAux : List Char → List Char → List (List Char)
  | buf, [] => if buf.isEmpty then [] else [buf.reverse]
  | buf, c :: rest =>
    if c.isWhitespace then
      if buf.isEmpty then wordsAux [] rest
      else buf.reverse :: wordsAux [] rest
    else wordsAux (c :: buf) rest

/-- Rust `str::split_whitespace`: whitespace-separated words, empties dropped. -/
def splitWhitespace (s : String) : List String :=
  (wordsAux [] s.data).map String.mk

/-- Rust `str::to_lowercase` (ASCII-relevant part: `Char.toLower`). -/
def toLowerStr (s : String) : String :=
  String.mk (s.data.map Char.toLower)

/-- Whether `pat` occurs as a contiguous sublist of `l`
(Rust `str::contains` on the character level). -/
def listContainsSeq (pat : List Char) : List Char → Bool
  | [] => pat.isEmpty
  | c :: tl => pat.isPrefixOf (c :: tl) || listContainsSeq pat tl

/-- Rust `str::contains(pat)` for the haystack `hay`. -/
def containsSub (hay pat : String) : Bool :=
  listContainsSeq pat.data hay.data

/-- The word scan inside chat.rs `is_plan_update_command`: the first
whitespace-separated word of the original message that starts with `t`
followed only by ASCII digits. -/
def taskWord (message : String) : Option String :=
  (splitWhitespace message).find? fun w =>
    match w.data with
    | 't' :: rest => rest.all Char.isDigit
    | _ => false

/-- chat.rs `is_plan_update_command`. -/
def isPlanUpdateCommand (message : String) : Option (String × String) :=
  let lower := toLowerStr message
  let markHit : Option (String × String) :=
    if containsSub lower "mark" && containsSub lower "complete" then
      (taskWord message).map (fun w => (w, "completed"))
    else none
  match markHit with
  | some r => some r
  | none =>
    if containsSub lower "start" || containsSub lower "begin" then
      (taskWord message).map (fun w => (w, "in_progress"))
    else none

/-- chat.rs `CANNED_RESPONSES`. -/
def cannedResponses : List String :=
  ["I understand you're working on a plan. Let me help you with that. I can see your tasks and phases, and I'll do my best to assist you in making progress.",
   "Based on the current state of your plan, I notice there are some tasks that could be optimized. Would you like me to suggest some improvements?",
   "That's a great question! When working with plans, it's important to consider dependencies between tasks. Let me analyze your current setup.",
   "I've reviewed your plan structure. Here are some observations:\n\n1. Your phases are well-organized\n2. Task dependencies look logical\n3. Consider adding more granular tasks for complex items",
   "Let me help you break down this task into smaller, manageable pieces. This will make tracking progress easier and help identify bottlenecks early."]

/-- Response text selected and built by chat.rs `send_chat_message`
(`message.len()` is the UTF-8 byte length in Rust). -/
def mockResponse (message : String) : String :=
  let base := cannedResponses.getD (message.utf8ByteSize % cannedResponses.length) ""
  match isPlanUpdateCommand message with
  | some (taskId, status) =>
    "I'll " ++ (if status = "completed" then "mark as complete" else "start") ++
      " task " ++ taskId ++ " for you.\n\n" ++ base
  | none => base

/-- Rust `slice::chunks(3)`: consecutive chunks of three characters, the
last chunk possibly shorter; the empty list yields no chunks. -/
def chunks3 : List Char → List (List Char)
  | [] => []
  | [a] => [[a]]
  | [a, b] => [[a, b]]
  | a :: b :: c :: rest => [a, b, c] :: chunks3 rest

/-- A stream event with no payload. -/
def bareEvent (t : StreamEventType) : StreamEvent := ⟨t, none, none⟩

/-- A content-block-delta event carrying a text fragment. -/
def deltaEvent (s : String) : StreamEvent := ⟨.contentBlockDelta, some s, none⟩

/-- The chat-stream events chat.rs `send_chat_message` attempts to emit for
one message, in attempt order (delays elided). The plan-update check and the
response text are computed before any emission, so this sequence does not
depend on emission outcomes; the fallible emission loop `emitAll` below
replays it through the event bus. -/
def plannedChatEvents (message : String) : List StreamEvent :=
  let planUpd := isPlanUpdateCommand message
  let response := mockResponse message
  bareEvent .messageStart ::
    bareEvent .contentBlockStart ::
    ((chunks3 response.data).map (fun ch => deltaEvent (String.mk ch)) ++
      bareEvent .contentBlockStop ::
        ((match planUpd with
          | some (taskId, status) =>
            [⟨.planUpdate, none, some ⟨taskId, some status, none⟩⟩]
          | none => []) ++
          [bareEvent .messageStop]))

/-- chat.rs `emit_event` applied to each event in turn under the `?`
operator: `emits k` is the event-bus outcome of the k-th `app.emit`
attempt; the first failure aborts the whole command with
`"Failed to emit event: " ++ e`, so only the preceding events were
emitted. Returns the command result and the actually-emitted events. -/
def emitAll (emits : Nat → Except String Unit) :
    Nat → List StreamEvent → Except String Unit × List StreamEvent
  | _, [] => (.ok (), [])
  | k, e :: rest =>
    match emits k with
    | .error msg => (.error ("Failed to emit event: " ++ msg), [])
    | .ok _ =>
      let (res, tail) := emitAll emits (k + 1) rest
      (res, e :: tail)

/-- chat.rs `send_chat_message`: computes the planned event sequence, then
emits each event through `emit_event(...)?` — an emission failure truncates
the emitted chat-stream at the failure point and returns the error. -/
def sendChatMessage (message : String) (emits : Nat → Except String Unit) :
    Except String Unit × List StreamEvent :=
  emitAll emits 0 (plannedChatEvents message)

/-! ## Event-ordering invariant (spec §4.3) -/

/-- The event types of an emitted event list, in emission order. -/
def eventTypes (es : List StreamEvent) : List StreamEventType :=
  es.map (·.eventType)

/-- Whether an event type is one of the `content-block-*` events. -/
def isContentBlockEvent : StreamEventType → Bool
  | .contentBlockStart => true
  | .contentBlockDelta => true
  | .contentBlockStop => true
  | _ => false

/-- The §4.3 ordering invariant over an emitted event-type sequence:
message-start precedes every content-block-* event; content-block-start
precedes every content-block-delta (in particular the first);
content-block-stop follows every content-block-delta (in particular the
last) and precedes message-stop; plan-update lies after content-block-stop
and before message-stop. -/
def orderingOk (ts : List StreamEventType) : Prop :=
  (∀ i : Fin ts.length, isContentBlockEvent (ts.get i) →
    ∃ j : Fin ts.length, j.val < i.val ∧ ts.get j = .messageStart) ∧
  (∀ i : Fin ts.length, ts.get i = .contentBlockDelta →
    ∃ j : Fin ts.length, j.val < i.val ∧ ts.get j = .contentBlockStart) ∧
  (∀ i j : Fin ts.length, ts.get i = .contentBlockDelta →
    ts.get j = .contentBlockStop → i.val < j.val) ∧
  (∀ i : Fin ts.length, ts.get i = .contentBlockStop →
    ∃ j : Fin ts.length, i.val < j.val ∧ ts.get j = .messageStop) ∧
  (∀ i : Fin ts.length, ts.get i = .planUpdate →
    (∃ j : Fin ts.length, j.val < i.val ∧ ts.get j = .contentBlockStop) ∧
    (∃ k : Fin ts.length, i.val < k.val ∧ ts.get k = .messageStop))

instance orderingOkDecidable : DecidablePred orderingOk := fun ts => by
  unfold orderingOk
  infer_instance

/-- The common shape of a complete mock turn: message-start,
content-block-start, `n` deltas, content-block-stop, `p` plan-updates,
message-stop. -/
def shapeTs (n p : Nat) : List StreamEventType :=
  .messageStart :: .contentBlockStart ::
    (List.replicate n .contentBlockDelta ++
      .contentBlockStop :: (List.replicate p .planUpdate ++ [.messageStop]))

/-- Position-indexed view of `shapeTs`. -/
def shapeAt (n p i : Nat) : StreamEventType :=
  if i = 0 then .messageStart
  else if i = 1 then .contentBlockStart
  else if i < n + 2 then .contentBlockDelta
  else if i = n + 2 then .contentBlockStop
  else if i < n + p + 3 then .planUpdate
  else .messageStop

/-! ## PTY sessions and the PtyManager registry (pty.rs) -/

/-- pty.rs `PtySession`: the OS resources (the PTY pair and the writer) are
external; the model keeps the identity and the shared running flag, which is
the only state the Rust code itself reads or writes. -/
structure PtySession where
  id : String
  running : Bool
deriving DecidableEq, Repr

/-- The `HashMap<String, PtySession>` registry of pty.rs `PtyManager`,
modelled as an association list with unique keys. -/
abbrev Registry := List (String × PtySession)

/-- `sessions.get(id)` on the registry map. -/
def lookupSession (r : Registry) (id : String) : Option PtySession :=
  (r.find? (fun p => p.1 == id)).map Prod.snd

/-- `sessions.remove(id)` on the registry map. -/
def eraseSession (r : Registry) (id : String) : Registry :=
  r.filter (fun p => p.1 != id)

/-- `sessions.insert(id, s)`: HashMap::insert replaces any existing binding. -/
def insertSession (r : Registry) (id : String) (s : PtySession) : Registry :=
  eraseSession r id ++ [(id, s)]

/-- The sessions an insert under `id` drops (the previously stored binding,
when present). -/
def overwrittenSessions (r : Registry) (id : String) : List PtySession :=
  ((r.find? (fun p => p.1 == id)).map Prod.snd).toList

/-- In-place mutation of the stored session under `id` (the Rust code holds
`&mut PtySession` inside the map; nothing is dropped). -/
def updateSession (r : Registry) (id : String) (s : PtySession) : Registry :=
  r.map (fun p => if p.1 == id then (id, s) else p)

/-- pty.rs `PtySession::stop`: clears the running flag. -/
def stopPty (s : PtySession) : PtySession := { s with running := false }

/-- Outcome of pty.rs `PtySession::spawn`: the returned result, the updated
session, and whether a child process / reader thread were started. -/
structure SpawnOutcome where
  result : Except String Unit
  session : PtySession
  childSpawned : Bool
  readerStarted : Bool
deriving DecidableEq, Repr

/-- pty.rs `PtySession::spawn`. The OS outcomes of `slave.spawn_command`
and `master.try_clone_reader` are the parameters `osSpawn` and `osClone`.
There is no check of the running flag: a successful OS spawn always starts
a (possibly second) child and sets running true; the reader thread starts
only when cloning the reader also succeeds. -/
def ptySpawn (s : PtySession) (osSpawn osClone : Except String Unit) : SpawnOutcome :=
  match osSpawn with
  | .error e => ⟨.error ("Failed to spawn command: " ++ e), s, false, false⟩
  | .ok _ =>
    let s1 := { s with running := true }
    match osClone with
    | .error e => ⟨.error ("Failed to clone PTY reader: " ++ e), s1, true, false⟩
    | .ok _ => ⟨.ok (), s1, true, true⟩

/-- pty.rs `PtySession::write`: forwards the bytes to the writer and
flushes; `osWrite` is the OS outcome of the combined write-and-flush. -/
def ptyWrite (osWrite : Except String Unit) : Except String Unit :=
  match osWrite with
  | .error e => .error ("Failed to write to PTY: " ++ e)
  | .ok _ => .ok ()

/-- Result triple of a PtyManager operation: the returned value, the updated
registry, and the sessions the operation dropped from the registry. -/
structure MgrResult (α : Type) where
  result : Except String α
  registry : Registry
  dropped : List PtySession
deriving Repr

/-- pty.rs `PtyManager::create_session`: builds a fresh session via
`PtySession::new` (OS outcome `osNew`, whose error message propagates
verbatim) and inserts it under the caller-supplied id; `insert` replaces
any existing binding without stopping it. -/
def createSession (r : Registry) (id : String) (osNew : Except String Unit) :
    MgrResult Unit :=
  match osNew with
  | .error e => ⟨.error e, r, []⟩
  | .ok _ => ⟨.ok (), insertSession r id ⟨id, false⟩, overwrittenSessions r id⟩

/-- pty.rs `PtyManager::spawn_in_session`. -/
def spawnInSession (r : Registry) (id : String) (osSpawn osClone : Except String Unit) :
    MgrResult Unit :=
  match lookupSession r id with
  | none => ⟨.error ("Session not found: " ++ id), r, []⟩
  | some s =>
    let o := ptySpawn s osSpawn osClone
    ⟨o.result, updateSession r id o.session, []⟩

/-- pty.rs `PtyManager::write_to_session`. -/
def writeToSession (r : Registry) (id : String) (osWrite : Except String Unit) :
    MgrResult Unit :=
  match lookupSession r id with
  | none => ⟨.error ("Session not found: " ++ id), r, []⟩
  | some _ => ⟨ptyWrite osWrite, r, []⟩

/-- pty.rs `PtyManager::resize_session` (rows/cols are forwarded to the OS;
`osResize` is the OS outcome). -/
def resizeSession (r : Registry) (id : String) (_rows _cols : Nat)
    (osResize : Except String Unit) : MgrResult Unit :=
  match lookupSession r id with
  | none => ⟨.error ("Session not found: " ++ id), r, []⟩
  | some _ =>
    match osResize with
    | .error e => ⟨.error ("Failed to resize PTY: " ++ e), r, []⟩
    | .ok _ => ⟨.ok (), r, []⟩

/-- pty.rs `PtyManager::stop_session`: stops the session when present,
succeeds either way. -/
def stopSession (r : Registry) (id : String) : MgrResult Unit :=
  match lookupSession r id with
  | none => ⟨.ok (), r, []⟩
  | some s => ⟨.ok (), updateSession r id (stopPty s), []⟩

/-- pty.rs `PtyManager::remove_session`: stops the session when present,
then removes it; succeeds either way. -/
def removeSession (r : Registry) (id : String) : MgrResult Unit :=
  match lookupSession r id with
  | none => ⟨.ok (), eraseSession r id, []⟩
  | some s => ⟨.ok (), eraseSession r id, [stopPty s]⟩

/-- pty.rs `PtyManager::is_session_running`: absent sessions report false. -/
def isSessionRunning (r : Registry) (id : String) : Except String Bool :=
  .ok (match lookupSession r id with
       | some s => s.running
       | none => false)

/-! ## The background reader thread (pty.rs: PtySession::spawn's closure) -/

/-- One loop iteration's observation in the reader thread: the running flag
observed false, a read returning data (n > 0 bytes, lossily decoded),
end-of-stream (Ok(0)), or a read error. -/
inductive ReadStep where
  | flagCleared
  | readData (data : String)
  | readEof
  | readErr (msg : String)
deriving DecidableEq, Repr

/-- pty.rs `PtyOutputEvent`. -/
structure PtyOutputEvent where
  data : String
  sessionId : String
deriving DecidableEq, Repr

/-- pty.rs `PtyExitEvent`. -/
structure PtyExitEvent where
  sessionId : String
  exitCode : Option Int
deriving DecidableEq, Repr

/-- Whether an observation makes the reader loop break. -/
def isTerminalStep : ReadStep → Bool
  | .flagCleared => true
  | .readData _ => false
  | .readEof => true
  | .readErr _ => true

/-- The reader loop body: consumes observations until a terminating one,
emitting one raw-output event per data read; returns the emitted events and
whether the loop broke (false means the finite observation trace ran out
with the loop still blocked in a read). -/
def readerLoop (sessionId : String) : List ReadStep → List PtyOutputEvent × Bool
  | [] => ([], false)
  | .flagCleared :: _ => ([], true)
  | .readEof :: _ => ([], true)
  | .readErr _ :: _ => ([], true)
  | .readData d :: rest =>
    let (evs, t) := readerLoop sessionId rest
    (⟨d, sessionId⟩ :: evs, t)

/-- Full outcome of the reader thread. -/
structure ReaderOutcome where
  rawEvents : List PtyOutputEvent
  exitEvents : List PtyExitEvent
  finalRunning : Bool
  terminated : Bool
deriving DecidableEq, Repr

/-- The reader thread of pty.rs `PtySession::spawn`: runs the loop, and on
loop exit clears the running flag, attempts `child.wait()` (`osWait`: none
when status collection fails, `some ok` otherwise; the code maps a success
status to exit code 0 and everything else to 1) and emits one exit event. -/
def readerRun (sessionId : String) (steps : List ReadStep) (osWait : Option Bool) :
    ReaderOutcome :=
  let (raws, term) := readerLoop sessionId steps
  if term then
    ⟨raws, [⟨sessionId, osWait.map (fun ok => if ok then 0 else 1)⟩], false, true⟩
  else
    ⟨raws, [], true, false⟩

/-! ## Credentials (credentials.rs) -/

/-- credentials.rs `AgentType`. -/
inductive AgentType where
  | claudeCode
  | codex
  | openCode
deriving DecidableEq, Repr

/-- credentials.rs `CredentialStatus`. -/
structure CredentialStatus where
  found : Bool
  source : Option String
  cliAvailable : Bool
  error : Option String
deriving DecidableEq, Repr

/-- The external facts credentials.rs consults: which credential sources
exist and which CLIs are on PATH. -/
structure CredEnv where
  claudeEnvCreds : Bool
  claudeFileCreds : Bool
  claudeKeychainCreds : Bool
  codexFileCreds : Bool
  codexKeychainCreds : Bool
  claudeCliAvailable : Bool
  codexCliAvailable : Bool
deriving DecidableEq, Repr

/-- credentials.rs `check_credentials`: environment, then file, then
keychain for Claude; file then keychain for Codex; OpenCode is hardcoded
found and available (it uses ACP, not a CLI). -/
def checkCredentials (env : CredEnv) (agent : AgentType) : CredentialStatus :=
  match agent with
  | .claudeCode =>
    let cli := env.claudeCliAvailable
    if env.claudeEnvCreds then ⟨true, some "environment", cli, none⟩
    else if env.claudeFileCreds then ⟨true, some "file", cli, none⟩
    else if env.claudeKeychainCreds then ⟨true, some "keychain", cli, none⟩
    else ⟨false, none, cli,
      some "No Claude Code credentials found. Please run 'claude login' first."⟩
  | .codex =>
    let cli := env.codexCliAvailable
    if env.codexFileCreds then ⟨true, some "file", cli, none⟩
    else if env.codexKeychainCreds then ⟨true, some "keychain", cli, none⟩
    else ⟨false, none, cli,
      some "No Codex credentials found. Please run 'codex auth' first."⟩
  | .openCode => ⟨true, some "acp", true, none⟩

/-- credentials.rs `get_agent_cli_command`: OpenCode always fails (it does
not use a CLI). -/
def getAgentCliCommand (env : CredEnv) (agent : AgentType) : Except String String :=
  match agent with
  | .claudeCode =>
    if env.claudeCliAvailable then .ok "claude"
    else .error "Claude Code CLI not found. Please install it first."
  | .codex =>
    if env.codexCliAvailable then .ok "codex"
    else .error "Codex CLI not found. Please install it first."
  | .openCode => .error "OpenCode uses ACP protocol directly"

/-! ## AgentManager and its commands (agent.rs) -/

/-- agent.rs `AgentSession`. -/
structure AgentSession where
  id : String
  agentType : AgentType
  cwd : String
  connected : Bool
  status : Option String
deriving DecidableEq, Repr

/-- agent.rs `AgentStatusEvent`. -/
structure AgentStatusEvent where
  sessionId : String
  connected : Bool
  message : Option String
  error : Option String
deriving DecidableEq, Repr

/-- agent.rs `AgentManager` state: current session, streaming flag,
accumulation buffer. -/
structure AgentManagerState where
  currentSession : Option AgentSession
  streaming : Bool
  outputBuffer : String
deriving DecidableEq, Repr

/-- Rust `{:?}` Debug rendering of an `AgentType` variant. -/
def debugName : AgentType → String
  | .claudeCode => "ClaudeCode"
  | .codex => "Codex"
  | .openCode => "OpenCode"

/-- The short kind tag embedded in generated session ids. -/
def shortName : AgentType → String
  | .claudeCode => "claude"
  | .codex => "codex"
  | .openCode => "opencode"

/-- The session id agent.rs `agent_connect` generates from the agent kind
and the millisecond timestamp. -/
def sessionIdFor (agent : AgentType) (millis : Nat) : String :=
  "agent_" ++ shortName agent ++ "_" ++ toString millis

/-- OS / event-bus outcomes consumed during `agent_connect`:
`PtySession::new`, `spawn_command`, `try_clone_reader`, and the
`agent-status` emission. -/
structure ConnectOs where
  osNew : Except String Unit
  osSpawn : Except String Unit
  osClone : Except String Unit
  osEmit : Except String Unit
deriving DecidableEq, Repr

/-- Full outcome of agent.rs `agent_connect`. -/
structure ConnectResult where
  result : Except String AgentSession
  agent : AgentManagerState
  registry : Registry
  dropped : List PtySession
  statusEvents : List AgentStatusEvent
deriving Repr

/-- agent.rs `agent_connect`: credential gate, CLI gate, CLI-command
lookup, session-id generation, PTY creation, kind-specific args (OpenCode
errors here, though the CLI-command lookup already rejected it), spawn,
store session, emit status. No step after PTY creation removes the created
session on failure. -/
def agentConnect (env : CredEnv) (os : ConnectOs) (millis : Nat)
    (agentType : AgentType) (cwd : String) (st : AgentManagerState)
    (r : Registry) : ConnectResult :=
  let cred := checkCredentials env agentType
  if !cred.found then
    ⟨.error (cred.error.getD "Credentials not found"), st, r, [], []⟩
  else if !cred.cliAvailable then
    ⟨.error (debugName agentType ++ " CLI is not installed"), st, r, [], []⟩
  else
    match getAgentCliCommand env agentType with
    | .error e => ⟨.error e, st, r, [], []⟩
    | .ok _cliCmd =>
      let sessionId := sessionIdFor agentType millis
      let c := createSession r sessionId os.osNew
      match c.result with
      | .error e => ⟨.error e, st, c.registry, c.dropped, []⟩
      | .ok _ =>
        match agentType with
        | .openCode =>
          ⟨.error "OpenCode uses ACP protocol, not PTY", st, c.registry, c.dropped, []⟩
        | _ =>
          let sp := spawnInSession c.registry sessionId os.osSpawn os.osClone
          match sp.result with
          | .error e => ⟨.error e, st, sp.registry, c.dropped ++ sp.dropped, []⟩
          | .ok _ =>
            let session : AgentSession := ⟨sessionId, agentType, cwd, true, some "Connected"⟩
            let st1 := { st with currentSession := some session }
            match os.osEmit with
            | .error e => ⟨.error e, st1, sp.registry, c.dropped ++ sp.dropped, []⟩
            | .ok _ =>
              ⟨.ok session, st1, sp.registry, c.dropped ++ sp.dropped,
               [⟨sessionId, true, some "Connected to agent", none⟩]⟩

/-- Full outcome of agent.rs `agent_disconnect`. -/
structure DisconnectResult where
  result : Except String Unit
  agent : AgentManagerState
  registry : Registry
  dropped : List PtySession
  statusEvents : List AgentStatusEvent
deriving Repr

/-- agent.rs `agent_disconnect`. -/
def agentDisconnect (osEmit : Except String Unit) (st : AgentManagerState)
    (r : Registry) : DisconnectResult :=
  match st.currentSession with
  | none => ⟨.error "No active agent session", st, r, [], []⟩
  | some session =>
    let stp := stopSession r session.id
    let rem := removeSession stp.registry session.id
    let st1 : AgentManagerState := ⟨none, false, st.outputBuffer⟩
    match osEmit with
    | .error e => ⟨.error e, st1, rem.registry, stp.dropped ++ rem.dropped, []⟩
    | .ok _ =>
      ⟨.ok (), st1, rem.registry, stp.dropped ++ rem.dropped,
       [⟨session.id, false, some "Disconnected", none⟩]⟩

/-- Full outcome of agent.rs `agent_send_message`. `written` is the data
handed to `write_to_session` for the current session (None when the call
was rejected before reaching the PTY). -/
structure SendResult where
  result : Except String Unit
  agent : AgentManagerState
  written : Option String
  chatEvents : List StreamEvent
deriving Repr

/-- agent.rs `agent_send_message`: rejects when no session is current or a
response is already streaming; otherwise sets streaming true, clears the
buffer, writes `message + newline` to the PTY and emits message-start. -/
def agentSendMessage (message : String) (osWrite osEmit : Except String Unit)
    (st : AgentManagerState) (r : Registry) : SendResult :=
  match st.currentSession with
  | none => ⟨.error "No active agent session", st, none, []⟩
  | some session =>
    if st.streaming then ⟨.error "Already processing a message", st, none, []⟩
    else
      let st1 : AgentManagerState := ⟨st.currentSession, true, ""⟩
      let input := message ++ "\n"
      let w := writeToSession r session.id osWrite
      match w.result with
      | .error e => ⟨.error e, st1, some input, []⟩
      | .ok _ =>
        match osEmit with
        | .error e => ⟨.error e, st1, some input, []⟩
        | .ok _ => ⟨.ok (), st1, some input, [bareEvent .messageStart]⟩

/-- Outcome of agent.rs `agent_process_output` / `agent_finish_response`. -/
structure EmitResult where
  result : Except String Unit
  agent : AgentManagerState
  chatEvents : List StreamEvent
deriving Repr

/-- agent.rs `agent_process_output`: appends the raw chunk to the buffer,
strips ANSI codes, and emits a content-block-delta when the cleaned text is
non-empty. -/
def agentProcessOutput (data : String) (osEmit : Except String Unit)
    (st : AgentManagerState) : EmitResult :=
  let st1 := { st with outputBuffer := st.outputBuffer ++ data }
  let clean := stripAnsiCodes data
  if clean = "" then ⟨.ok (), st1, []⟩
  else
    match osEmit with
    | .error e => ⟨.error e, st1, []⟩
    | .ok _ => ⟨.ok (), st1, [⟨.contentBlockDelta, some clean, none⟩]⟩

/-- agent.rs `agent_finish_response`: clears the streaming flag and emits
message-stop. -/
def agentFinishResponse (osEmit : Except String Unit) (st : AgentManagerState) :
    EmitResult :=
  let st1 := { st with streaming := false }
  match osEmit with
  | .error e => ⟨.error e, st1, []⟩
  | .ok _ => ⟨.ok (), st1, [bareEvent .messageStop]⟩

/-- The chat-stream events emitted over a live-PTY run of connect, then
send_message, then finish_response, then disconnect (connect and disconnect
emit only agent-status events, never chat-stream events). -/
def liveRunChatEvents (env : CredEnv) (os : ConnectOs) (millis : Nat)
    (agentType : AgentType) (cwd message : String)
    (osWrite osEmitSend osEmitFinish osEmitDisc : Except String Unit)
    (st : AgentManagerState) (r : Registry) : List StreamEvent :=
  let c := agentConnect env os millis agentType cwd st r
  let s := agentSendMessage message osWrite osEmitSend c.agent c.registry
  let f := agentFinishResponse osEmitFinish s.agent
  let _d := agentDisconnect osEmitDisc f.agent c.registry
  s.chatEvents ++ f.chatEvents

/-- The output of the stripping loop never contains ESC. -/
theorem escChar_not_mem_stripAnsiAux (b : Bool) (cs : List Char) :
    escChar ∉ stripAnsiAux b cs := by
  induction cs generalizing b with
  | nil => cases b <;> simp [stripAnsiAux]
  | cons c rest ih =>
    cases b with
    | true =>
      simp only [stripAnsiAux]
      split <;> exact ih _
    | false =>
      simp only [stripAnsiAux]
      split
      · exact ih _
      · next hne =>
        intro hmem
        rcases List.mem_cons.mp hmem with h | h
        · exact hne h.symm
        · exact ih false h

/-- On ESC-free input the stripping loop (outside an escape) is the identity. -/
theorem stripAnsiAux_of_not_mem (cs : List Char) (h : escChar ∉ cs) :
    stripAnsiAux false cs = cs := by
  induction cs with
  | nil => rfl
  | cons c rest ih =>
    simp only [stripAnsiAux]
    have hc : ¬c = escChar := fun hc => h (hc ▸ List.mem_cons_self c rest)
    rw [if_neg hc, ih (fun hm => h (List.mem_cons_of_mem c hm))]

/-- Inside an escape, input with no ASCII-alphabetic character is consumed
entirely (the unterminated-escape case). -/
theorem stripAnsiAux_true_no_alpha (cs : List Char) (h : ∀ c ∈ cs, ¬c.isAlpha) :
    stripAnsiAux true cs = [] := by
  induction cs with
  | nil => rfl
  | cons c rest ih =>
    simp only [stripAnsiAux]
    rw [if_neg (h c (List.mem_cons_self c rest))]
    exact ih (fun c' hc' => h c' (List.mem_cons_of_mem c hc'))

theorem stripAnsiCodes_idem (s : String) :
    stripAnsiCodes (stripAnsiCodes s) = stripAnsiCodes s := by
  unfold stripAnsiCodes
  rw [stripAnsiAux_of_not_mem _ (escChar_not_mem_stripAnsiAux false s.data)]

/-- Outside an escape, an ESC-free block passes through the loop untouched. -/
theorem stripAnsiAux_append_of_not_mem (pre rest : List Char) (h : escChar ∉ pre) :
    stripAnsiAux false (pre ++ rest) = pre ++ stripAnsiAux false rest := by
  induction pre with
  | nil => rfl
  | cons c tl ih =>
    simp only [List.cons_append, stripAnsiAux, List.append_eq]
    have hc : ¬c = escChar := fun hc => h (hc ▸ List.mem_cons_self c tl)
    rw [if_neg hc, ih (fun hm => h (List.mem_cons_of_mem c hm))]

/-- Meeting an ESC outside an escape enters escape mode. -/
theorem stripAnsiAux_esc_cons (l : List Char) :
    stripAnsiAux false (escChar :: l) = stripAnsiAux true l := by
  simp [stripAnsiAux]

/-- Inside an escape, everything up to and including the first
ASCII-alphabetic character is dropped, after which normal processing resumes. -/
theorem stripAnsiAux_true_elim (t : List Char) (c : Char) (u : List Char)
    (ht : ∀ x ∈ t, ¬x.isAlpha) (hc : c.isAlpha) :
    stripAnsiAux true (t ++ c :: u) = stripAnsiAux false u := by
  induction t with
  | nil => simp [stripAnsiAux, hc]
  | cons x tl ih =>
    simp only [List.cons_append, stripAnsiAux]
    rw [if_neg (ht x (List.mem_cons_self x tl))]
    exact ih (fun y hy => ht y (List.mem_cons_of_mem x hy))

/-- C5: ANSI stripping is total (a total function by construction) and
idempotent; it is the identity on ESC-free strings; it removes each
subsequence starting at an ESC up to and including the first subsequent
ASCII letter; an unterminated escape consumes to end of input; and it maps
"\x1b[32mHello\x1b[0m World" to "Hello World". -/
theorem C5_strip_ansi :
    (∀ s : String, stripAnsiCodes (stripAnsiCodes s) = stripAnsiCodes s) ∧
    (∀ s : String, escChar ∉ s.data → stripAnsiCodes s = s) ∧
    (∀ pre t u : List Char, ∀ c : Char, escChar ∉ pre → (∀ x ∈ t, ¬x.isAlpha) →
      c.isAlpha →
      stripAnsiCodes (String.mk (pre ++ escChar :: (t ++ c :: u))) =
        String.mk (pre ++ stripAnsiAux false u)) ∧
    (∀ pre t : List Char, escChar ∉ pre → (∀ x ∈ t, ¬x.isAlpha) →
      stripAnsiCodes (String.mk (pre ++ escChar :: t)) = String.mk pre) ∧
    stripAnsiCodes "\x1b[32mHello\x1b[0m World" = "Hello World" := by
  refine ⟨stripAnsiCodes_idem, ?_, ?_, ?_, by decide⟩
  · intro s hs
    unfold stripAnsiCodes
    rw [stripAnsiAux_of_not_mem s.data hs]
  · intro pre t u c hpre ht hc
    unfold stripAnsiCodes
    rw [stripAnsiAux_append_of_not_mem pre _ hpre, stripAnsiAux_esc_cons,
      stripAnsiAux_true_elim t c u ht hc]
  · intro pre t hpre ht
    unfold stripAnsiCodes
    rw [stripAnsiAux_append_of_not_mem pre _ hpre, stripAnsiAux_esc_cons,
      stripAnsiAux_true_no_alpha t ht, List.append_nil]

/-- Witness for C5 at concrete inputs: the ESC-free string "abc" is fixed,
and an unterminated escape is consumed to end of input. -/
theorem C5_strip_ansi_witness :
    stripAnsiCodes "abc" = "abc" ∧
    stripAnsiCodes (String.mk ('H' :: 'i' :: escChar :: '[' :: '1' :: '2' :: [])) =
      String.mk ('H' :: 'i' :: []) :=
  ⟨C5_strip_ansi.2.1 "abc" (by decide),
   C5_strip_ansi.2.2.2.1 ('H' :: 'i' :: []) ('[' :: '1' :: '2' :: [])
     (by decide) (by decide)⟩

/-! ## C1: ordering of the streaming protocol -/

theorem shapeTs_length (n p : Nat) : (shapeTs n p).length = n + p + 4 := by
  simp [shapeTs]
  omega

theorem shapeTs_getElemOpt (n p i : Nat) (h : i < n + p + 4) :
    (shapeTs n p)[i]? = some (shapeAt n p i) := by
  rcases i with _ | i
  · rfl
  rcases i with _ | k
  · simp [shapeTs, shapeAt]
  · have hts : (shapeTs n p)[k + 2]? =
        (List.replicate n StreamEventType.contentBlockDelta ++
          StreamEventType.contentBlockStop ::
            (List.replicate p StreamEventType.planUpdate ++
              [StreamEventType.messageStop]))[k]? := by
      simp [shapeTs]
    rw [hts]
    by_cases hk : k < n
    · rw [List.getElem?_append_left (by simpa using hk),
        List.getElem?_replicate_of_lt hk]
      unfold shapeAt
      rw [if_neg (by omega), if_neg (by omega), if_pos (by omega)]
    · rw [List.getElem?_append_right (by simpa using Nat.le_of_not_lt hk)]
      simp only [List.length_replicate]
      obtain ⟨m, rfl⟩ : ∃ m, k = n + m := ⟨k - n, by omega⟩
      have hm : n + m - n = m := by omega
      rw [hm]
      rcases m with _ | m
      · rw [List.getElem?_cons_zero]
        unfold shapeAt
        rw [if_neg (by omega), if_neg (by omega), if_neg (by omega), if_pos (by omega)]
      · rw [List.getElem?_cons_succ]
        by_cases hmp : m < p
        · rw [List.getElem?_append_left (by simpa using hmp),
            List.getElem?_replicate_of_lt hmp]
          unfold shapeAt
          rw [if_neg (by omega), if_neg (by omega), if_neg (by omega),
            if_neg (by omega), if_pos (by omega)]
        · rw [List.getElem?_append_right (by simpa using Nat.le_of_not_lt hmp)]
          simp only [List.length_replicate]
          have hmp0 : m - p = 0 := by omega
          rw [hmp0, List.getElem?_cons_zero]
          unfold shapeAt
          rw [if_neg (by omega), if_neg (by omega), if_neg (by omega),
            if_neg (by omega), if_neg (by omega)]

theorem shapeTs_get (n p : Nat) (i : Fin (shapeTs n p).length) :
    (shapeTs n p).get i = shapeAt n p i.val := by
  have h : i.val < n + p + 4 := by
    simpa [shapeTs_length] using i.isLt
  have hc := shapeTs_getElemOpt n p i.val h
  rw [List.getElem?_eq_getElem i.isLt] at hc
  simpa [List.get_eq_getElem] using Option.some.inj hc

theorem shapeAt_eq_delta (n p i : Nat)
    (h : shapeAt n p i = .contentBlockDelta) : 2 ≤ i ∧ i < n + 2 := by
  unfold shapeAt at h
  split_ifs at h <;> simp_all <;> omega

theorem shapeAt_eq_stop (n p i : Nat)
    (h : shapeAt n p i = .contentBlockStop) : i = n + 2 := by
  unfold shapeAt at h
  split_ifs at h <;> simp_all

theorem shapeAt_eq_plan (n p i : Nat)
    (h : shapeAt n p i = .planUpdate) : n + 2 < i ∧ i < n + p + 3 := by
  unfold shapeAt at h
  split_ifs at h <;> simp_all <;> omega

theorem shapeAt_isCB (n p i : Nat)
    (h : isContentBlockEvent (shapeAt n p i) = true) : 1 ≤ i := by
  unfold shapeAt at h
  split_ifs at h <;> simp_all [isContentBlockEvent] <;> omega

theorem shapeAt_at_stop (n p : Nat) : shapeAt n p (n + 2) = .contentBlockStop := by
  unfold shapeAt
  rw [if_neg (by omega), if_neg (by omega), if_neg (by omega), if_pos rfl]

theorem shapeAt_at_mstop (n p : Nat) : shapeAt n p (n + p + 3) = .messageStop := by
  unfold shapeAt
  rw [if_neg (by omega), if_neg (by omega), if_neg (by omega), if_neg (by omega),
    if_neg (by omega)]

theorem orderingOk_shapeTs (n p : Nat) : orderingOk (shapeTs n p) := by
  have hlen := shapeTs_length n p
  have hget := shapeTs_get n p
  refine ⟨?_, ?_, ?_, ?_, ?_⟩
  · intro i hi
    rw [hget i] at hi
    have h1 := shapeAt_isCB n p i.val hi
    refine ⟨⟨0, by omega⟩, by simpa using h1, ?_⟩
    rw [hget]
    rfl
  · intro i hi
    rw [hget i] at hi
    obtain ⟨h2, _⟩ := shapeAt_eq_delta n p i.val hi
    refine ⟨⟨1, by omega⟩, by simpa using h2, ?_⟩
    rw [hget]
    rfl
  · intro i j hi hj
    rw [hget i] at hi
    rw [hget j] at hj
    obtain ⟨_, hlt⟩ := shapeAt_eq_delta n p i.val hi
    have hj2 := shapeAt_eq_stop n p j.val hj
    omega
  · intro i hi
    rw [hget i] at hi
    have hi2 := shapeAt_eq_stop n p i.val hi
    refine ⟨⟨n + p + 3, by omega⟩, by simp [hi2]; omega, ?_⟩
    rw [hget]
    exact shapeAt_at_mstop n p
  · intro i hi
    rw [hget i] at hi
    obtain ⟨hlo, hhi⟩ := shapeAt_eq_plan n p i.val hi
    constructor
    · refine ⟨⟨n + 2, by omega⟩, by simpa using hlo, ?_⟩
      rw [hget]
      exact shapeAt_at_stop n p
    · refine ⟨⟨n + p + 3, by omega⟩, by simpa using hhi, ?_⟩
      rw [hget]
      exact shapeAt_at_mstop n p

theorem map_eventType_deltas (l : List (List Char)) :
    (l.map (fun ch => deltaEvent (String.mk ch))).map (·.eventType) =
      List.replicate l.length StreamEventType.contentBlockDelta := by
  induction l with
  | nil => rfl
  | cons a tl ih =>
    simp only [List.map_cons, List.length_cons, List.replicate_succ]
    rw [ih]
    rfl

theorem eventTypes_plannedChatEvents (message : String) :
    eventTypes (plannedChatEvents message) =
      shapeTs (chunks3 (mockResponse message).data).length
        (match isPlanUpdateCommand message with
         | some _ => 1
         | none => 0) := by
  unfold plannedChatEvents eventTypes shapeTs
  cases hpu : isPlanUpdateCommand message with
  | none =>
    simp only [List.map_cons, List.map_append, map_eventType_deltas]
    simp [bareEvent, List.replicate]
  | some pr =>
    obtain ⟨taskId, status⟩ := pr
    simp only [List.map_cons, List.map_append, map_eventType_deltas]
    simp [bareEvent, List.replicate]

theorem sendMessage_chatEvents (m : String) (osW osE : Except String Unit)
    (st : AgentManagerState) (r : Registry) :
    (agentSendMessage m osW osE st r).chatEvents = [] ∨
      (agentSendMessage m osW osE st r).chatEvents = [bareEvent .messageStart] := by
  unfold agentSendMessage
  cases st.currentSession with
  | none => left; rfl
  | some s =>
    simp only
    split
    · left; rfl
    · rcases hw : (writeToSession r s.id osW).result with e | u
      · left; simp [hw]
      · rcases osE with e2 | u2
        · left; simp [hw]
        · right; simp [hw]

theorem finishResponse_chatEvents (osE : Except String Unit)
    (st : AgentManagerState) :
    (agentFinishResponse osE st).chatEvents = [] ∨
      (agentFinishResponse osE st).chatEvents = [bareEvent .messageStop] := by
  unfold agentFinishResponse
  rcases osE with e | u
  · left; rfl
  · right; rfl

/-- When every event-bus emission succeeds, the emission loop emits the
whole planned sequence. -/
theorem emitAll_of_all_ok (emits : Nat → Except String Unit)
    (h : ∀ k, emits k = .ok ()) (k : Nat) (l : List StreamEvent) :
    emitAll emits k l = (.ok (), l) := by
  induction l generalizing k with
  | nil => rfl
  | cons e rest ih =>
    unfold emitAll
    rw [h k, ih (k + 1)]

/-- C1 counterexample: on the mock backend, when the final emission (the
message-stop emit) fails on the event bus, emit_event's `?` aborts
send_chat_message and the actually emitted sequence ends at
content-block-stop with no later message-stop — violating the §4.3
ordering invariant. So the claim does not hold for every run. -/
theorem C1_cex :
    ¬ orderingOk (eventTypes (sendChatMessage "hi"
      (fun k => if k + 1 = (plannedChatEvents "hi").length then .error "bus"
                else .ok ())).2) := by
  decide

/-- C1 amended: over a run of connect, send_message, finish_response,
disconnect on the live-PTY backend (for every environment, OS and
event-bus outcome, starting state and registry), and over every message on
the mock/offline backend (chat.rs send_chat_message) provided none of its
chat-stream emissions fails (a failed emission aborts the command and
truncates the stream at the failure point), the emitted chat-stream event
sequence satisfies the §4.3 ordering invariant: message-start precedes all
content-block-* events, content-block-start precedes the first
content-block-delta, content-block-stop follows the last delta and precedes
message-stop, and plan-update lies after content-block-stop and before
message-stop. -/
theorem C1_stream_ordering :
    (∀ env os millis agentType cwd message osW osE1 osE2 osE3 st r,
      orderingOk (eventTypes (liveRunChatEvents env os millis agentType cwd
        message osW osE1 osE2 osE3 st r))) ∧
    (∀ (message : String) (emits : Nat → Except String Unit),
      (∀ k, emits k = .ok ()) →
      orderingOk (eventTypes (sendChatMessage message emits).2)) := by
  constructor
  · intro env os millis agentType cwd message osW osE1 osE2 osE3 st r
    have heq : liveRunChatEvents env os millis agentType cwd message osW osE1
        osE2 osE3 st r =
        (agentSendMessage message osW osE1
          (agentConnect env os millis agentType cwd st r).agent
          (agentConnect env os millis agentType cwd st r).registry).chatEvents ++
        (agentFinishResponse osE2
          (agentSendMessage message osW osE1
            (agentConnect env os millis agentType cwd st r).agent
            (agentConnect env os millis agentType cwd st r).registry).agent).chatEvents :=
      rfl
    rw [heq]
    rcases sendMessage_chatEvents message osW osE1
        (agentConnect env os millis agentType cwd st r).agent
        (agentConnect env os millis agentType cwd st r).registry with hs | hs <;>
      rcases finishResponse_chatEvents osE2
        (agentSendMessage message osW osE1
          (agentConnect env os millis agentType cwd st r).agent
          (agentConnect env os millis agentType cwd st r).registry).agent with hf | hf <;>
      rw [hs, hf] <;> decide
  · intro message emits h
    have h2 : (sendChatMessage message emits).2 = plannedChatEvents message := by
      unfold sendChatMessage
      rw [emitAll_of_all_ok emits h 0 (plannedChatEvents message)]
    rw [h2, eventTypes_plannedChatEvents]
    exact orderingOk_shapeTs _ _

/-- Witness for C1 amended: the mock backend with every emission
succeeding satisfies the ordering invariant on a concrete message. -/
theorem C1_stream_ordering_witness :
    orderingOk (eventTypes (sendChatMessage "hi" (fun _ => .ok ())).2) :=
  C1_stream_ordering.2 "hi" (fun _ => .ok ()) (fun _ => rfl)

/-! ## Registry helper lemmas -/

/-- After an insert, looking up the inserted id yields the new session. -/
theorem lookupSession_insert (r : Registry) (id : String) (s : PtySession) :
    lookupSession (insertSession r id s) id = some s := by
  unfold lookupSession insertSession
  have h1 : (eraseSession r id).find? (fun p => p.1 == id) = none := by
    rw [List.find?_eq_none]
    intro x hx
    have hne := (List.mem_filter.mp hx).2
    simpa using hne
  rw [List.find?_append, h1]
  simp

/-- After an in-place update of a present id, lookup yields the new session. -/
theorem lookupSession_update (r : Registry) (id : String) (s1 : PtySession)
    (h : (lookupSession r id).isSome = true) :
    lookupSession (updateSession r id s1) id = some s1 := by
  unfold lookupSession at h
  unfold lookupSession updateSession
  induction r with
  | nil => simp at h
  | cons a tl ih =>
    rcases hb : (a.1 == id) with _ | _
    · rw [List.map_cons, if_neg (by simp [hb])]
      simp only [List.find?_cons, hb] at h ⊢
      exact ih h
    · rw [List.map_cons, if_pos hb]
      simp

/-- stop_session always succeeds. -/
theorem stopSession_result_ok (r : Registry) (id : String) :
    (stopSession r id).result = .ok () := by
  unfold stopSession
  rcases h : lookupSession r id with _ | s <;> simp [h]

/-! ## C8: reader loop termination and the exit event -/

theorem readerLoop_terminated_iff (sessionId : String) (steps : List ReadStep) :
    (readerLoop sessionId steps).2 = true ↔ steps.any isTerminalStep = true := by
  induction steps with
  | nil => simp [readerLoop]
  | cons s rest ih =>
    cases s <;> simp [readerLoop, isTerminalStep, ih]

/-- C8: the reader loop terminates exactly when it observes the running
flag false, a zero-length read or a read error; on termination it clears
the running flag and emits exactly one exit event whose code comes only
from the collected wait status (absent when collection failed); without a
terminating observation no exit event is emitted. -/
theorem C8_reader_loop (sessionId : String) (steps : List ReadStep)
    (osWait : Option Bool) :
    ((readerRun sessionId steps osWait).terminated = true ↔
      steps.any isTerminalStep = true) ∧
    ((readerRun sessionId steps osWait).terminated = true →
      (readerRun sessionId steps osWait).finalRunning = false ∧
      (readerRun sessionId steps osWait).exitEvents =
        [⟨sessionId, osWait.map (fun ok => if ok then 0 else 1)⟩] ∧
      (osWait = none →
        (readerRun sessionId steps osWait).exitEvents = [⟨sessionId, none⟩])) ∧
    ((readerRun sessionId steps osWait).terminated = false →
      (readerRun sessionId steps osWait).exitEvents = []) := by
  have hiff := readerLoop_terminated_iff sessionId steps
  unfold readerRun
  rcases hL : readerLoop sessionId steps with ⟨raws, term⟩
  rw [hL] at hiff
  cases term
  · simpa using hiff
  · refine ⟨by simpa using hiff, ?_, by simp⟩
    intro _
    refine ⟨rfl, rfl, ?_⟩
    intro hw
    rw [hw]
    rfl

/-- Witness for C8: a trace ending in end-of-stream with a successful wait
emits exactly the exit event with code 0. -/
theorem C8_reader_loop_witness :
    (readerRun "s" [ReadStep.readData "a", ReadStep.readEof] (some true)).exitEvents =
      [⟨"s", some 0⟩] :=
  (((C8_reader_loop "s" [ReadStep.readData "a", ReadStep.readEof]
    (some true)).2.1 (by decide)).2).1

/-! ## C9: spawn on an already-running session -/

/-- C9 counterexample: pty.rs `PtySession::spawn` has no running-flag
guard; on a session whose running flag is already true, a successful OS
spawn returns Ok and starts a second child process and reader thread,
instead of failing fast as the claim states. -/
theorem C9_cex :
    (ptySpawn ⟨"s", true⟩ (.ok ()) (.ok ())).result = .ok () ∧
    (ptySpawn ⟨"s", true⟩ (.ok ()) (.ok ())).childSpawned = true ∧
    (ptySpawn ⟨"s", true⟩ (.ok ()) (.ok ())).readerStarted = true ∧
    (⟨"s", true⟩ : PtySession).running = true := by
  decide

/-- C9 amended: spawn never consults the running flag: whenever the OS
spawn succeeds — even on a session already flagged running — a (second)
child is started and the session is marked running, with Ok returned when
the reader clone also succeeds; spawn fails only on an OS spawn or
reader-clone failure. -/
theorem C9_spawn_no_guard (s : PtySession) (osClone : Except String Unit)
    (e : String) :
    (ptySpawn s (.ok ()) osClone).childSpawned = true ∧
    (ptySpawn s (.ok ()) osClone).session = { s with running := true } ∧
    (osClone = .ok () →
      ptySpawn s (.ok ()) osClone = ⟨.ok (), { s with running := true }, true, true⟩) ∧
    ptySpawn s (.error e) osClone =
      ⟨.error ("Failed to spawn command: " ++ e), s, false, false⟩ := by
  refine ⟨?_, ?_, ?_, rfl⟩ <;> rcases osClone with e2 | u <;> simp [ptySpawn]

/-- Witness for C9 amended at a running session with successful OS calls. -/
theorem C9_spawn_no_guard_witness :
    ptySpawn ⟨"w9", true⟩ (.ok ()) (.ok ()) =
      ⟨.ok (), ⟨"w9", true⟩, true, true⟩ :=
  (C9_spawn_no_guard ⟨"w9", true⟩ (.ok ()) "e").2.2.1 rfl

/-! ## C6: unknown-id lookups -/

/-- C6 counterexample: remove_session on an absent id succeeds (the claim
says it fails with SessionNotFound), and is_session_running on an absent
id returns Ok(false) rather than a SessionNotFound error. -/
theorem C6_cex :
    (removeSession ([] : Registry) "x").result = .ok () ∧
    (removeSession ([] : Registry) "x").result ≠
      .error ("Session not found: " ++ "x") ∧
    isSessionRunning ([] : Registry) "x" = .ok false := by
  decide

/-- C6 amended: for an id absent from the registry, spawn_in_session,
write_to_session and resize_session fail with SessionNotFound naming the
id; stop_session and remove_session succeed (both idempotent); and
is_session_running returns false rather than an error. stop_session twice
on the same id succeeds both times. -/
theorem C6_unknown_id (r : Registry) (id : String)
    (osSpawn osClone osWrite osResize : Except String Unit) (rows cols : Nat)
    (h : lookupSession r id = none) :
    (spawnInSession r id osSpawn osClone).result =
      .error ("Session not found: " ++ id) ∧
    (writeToSession r id osWrite).result =
      .error ("Session not found: " ++ id) ∧
    (resizeSession r id rows cols osResize).result =
      .error ("Session not found: " ++ id) ∧
    (stopSession r id).result = .ok () ∧
    (removeSession r id).result = .ok () ∧
    isSessionRunning r id = .ok false ∧
    (∀ r2 id2, (stopSession r2 id2).result = .ok () ∧
      (stopSession (stopSession r2 id2).registry id2).result = .ok ()) := by
  refine ⟨?_, ?_, ?_, ?_, ?_, ?_, ?_⟩
  · simp [spawnInSession, h]
  · simp [writeToSession, h]
  · simp [resizeSession, h]
  · exact stopSession_result_ok r id
  · simp [removeSession, h]
  · simp [isSessionRunning, h]
  · intro r2 id2
    exact ⟨stopSession_result_ok r2 id2, stopSession_result_ok _ id2⟩

/-- Witness for C6 amended on a registry not containing the id "x". -/
theorem C6_unknown_id_witness :
    (writeToSession [("a", (⟨"a", false⟩ : PtySession))] "x" (.ok ())).result =
      .error ("Session not found: " ++ "x") :=
  (C6_unknown_id [("a", ⟨"a", false⟩)] "x" (.ok ()) (.ok ()) (.ok ()) (.ok ())
    24 80 (by decide)).2.1

/-! ## C7: no running session is dropped -/

/-- C7 counterexample: create_session with an id already in the registry
overwrites (drops) the stored session without stopping it first — here the
dropped session still has its running flag true. -/
theorem C7_cex :
    (createSession [("s", (⟨"s", true⟩ : PtySession))] "s" (.ok ())).dropped =
      [⟨"s", true⟩] ∧
    (⟨"s", true⟩ : PtySession).running = true := by
  decide

/-- C7 amended: remove_session stops the session before dropping it (every
session it drops has running = false), and no other operation except
create_session ever drops a session; but create_session on a duplicate id
drops the previously stored session exactly as it was — without stopping
it. -/
theorem C7_no_running_drop (r : Registry) (id : String)
    (osSpawn osClone osWrite osResize : Except String Unit) (rows cols : Nat) :
    (∀ s ∈ (removeSession r id).dropped, s.running = false) ∧
    (spawnInSession r id osSpawn osClone).dropped = [] ∧
    (writeToSession r id osWrite).dropped = [] ∧
    (resizeSession r id rows cols osResize).dropped = [] ∧
    (stopSession r id).dropped = [] ∧
    (∀ s0, lookupSession r id = some s0 →
      (createSession r id (.ok ())).dropped = [s0]) := by
  refine ⟨?_, ?_, ?_, ?_, ?_, ?_⟩
  · intro s hs
    unfold removeSession at hs
    rcases hl : lookupSession r id with _ | s1 <;> rw [hl] at hs
    · simp at hs
    · simp at hs
      rw [hs]
      rfl
  · unfold spawnInSession
    rcases hl : lookupSession r id with _ | s1 <;> simp [hl]
  · unfold writeToSession
    rcases hl : lookupSession r id with _ | s1 <;> simp [hl]
  · unfold resizeSession
    rcases hl : lookupSession r id with _ | s1 <;> simp [hl]
    rcases osResize with e | u <;> simp
  · unfold stopSession
    rcases hl : lookupSession r id with _ | s1 <;> simp [hl]
  · intro s0 h0
    unfold createSession overwrittenSessions
    unfold lookupSession at h0
    simp only [h0]
    rfl

/-- Witness for C7 amended: removing a running session drops it stopped,
and create_session over a present id drops the old session as-is. -/
theorem C7_no_running_drop_witness :
    (∀ s ∈ (removeSession [("w7", (⟨"w7", true⟩ : PtySession))] "w7").dropped,
      s.running = false) ∧
    (createSession [("w7", (⟨"w7", true⟩ : PtySession))] "w7" (.ok ())).dropped =
      [⟨"w7", true⟩] :=
  ⟨(C7_no_running_drop [("w7", ⟨"w7", true⟩)] "w7" (.ok ()) (.ok ()) (.ok ())
      (.ok ()) 24 80).1,
   (C7_no_running_drop [("w7", ⟨"w7", true⟩)] "w7" (.ok ()) (.ok ()) (.ok ())
      (.ok ()) 24 80).2.2.2.2.2 ⟨"w7", true⟩ (by decide)⟩

/-! ## C2: connect failure and the registry -/

/-- C2 counterexample: agent_connect with valid credentials and CLI but a
failing spawn returns the spawn error while the PtySession created by that
call is still in the registry — there is no rollback, contradicting the
claim that any PtySession created before the failure is removed before
connect returns. -/
theorem C2_cex :
    (agentConnect ⟨true, false, false, false, false, true, false⟩
      ⟨.ok (), .error "boom", .ok (), .ok ()⟩ 0 .claudeCode "/tmp"
      ⟨none, false, ""⟩ []).result =
        .error ("Failed to spawn command: " ++ "boom") ∧
    lookupSession (agentConnect ⟨true, false, false, false, false, true, false⟩
      ⟨.ok (), .error "boom", .ok (), .ok ()⟩ 0 .claudeCode "/tmp"
      ⟨none, false, ""⟩ []).registry (sessionIdFor .claudeCode 0) =
      some ⟨sessionIdFor .claudeCode 0, false⟩ := by
  decide

/-- C2 amended: failures before PTY creation (credentials missing, CLI
unavailable, CLI-command lookup failure — which includes every connect of
the non-PTY OpenCode kind, so such a kind never reaches PtyManager) leave
the registry unchanged; but when the spawn after PTY creation fails, the
created PtySession is left in the registry — connect performs no
rollback. -/
theorem C2_connect_registry (env : CredEnv) (os : ConnectOs) (millis : Nat)
    (ty : AgentType) (cwd : String) (st : AgentManagerState) (r : Registry) :
    (¬(checkCredentials env ty).found = true →
      (agentConnect env os millis ty cwd st r).registry = r) ∧
    ((checkCredentials env ty).found = true →
      (checkCredentials env ty).cliAvailable = false →
      (agentConnect env os millis ty cwd st r).registry = r) ∧
    (∀ e, getAgentCliCommand env ty = .error e →
      (agentConnect env os millis ty cwd st r).registry = r) ∧
    (ty = .openCode →
      (agentConnect env os millis ty cwd st r).registry = r ∧
      (agentConnect env os millis ty cwd st r).result =
        .error "OpenCode uses ACP protocol directly") ∧
    (∀ e2, (checkCredentials env ty).found = true →
      (checkCredentials env ty).cliAvailable = true →
      (∃ cmd, getAgentCliCommand env ty = .ok cmd) →
      os.osNew = .ok () → os.osSpawn = .error e2 →
      (agentConnect env os millis ty cwd st r).result =
        .error ("Failed to spawn command: " ++ e2) ∧
      lookupSession (agentConnect env os millis ty cwd st r).registry
          (sessionIdFor ty millis) =
        some ⟨sessionIdFor ty millis, false⟩) := by
  refine ⟨?_, ?_, ?_, ?_, ?_⟩
  · intro hf
    have hf2 : (checkCredentials env ty).found = false := by
      revert hf
      cases (checkCredentials env ty).found <;> simp
    unfold agentConnect
    simp [hf2]
  · intro hf hc
    unfold agentConnect
    simp [hf, hc]
  · intro e hcmd
    unfold agentConnect
    cases hf : (checkCredentials env ty).found
    · simp [hf]
    · cases hc : (checkCredentials env ty).cliAvailable
      · simp [hf, hc]
      · simp [hf, hc, hcmd]
  · intro hty
    subst hty
    unfold agentConnect
    simp [checkCredentials, getAgentCliCommand]
  · intro e2 hf hc hcmd hnew hspawn
    obtain ⟨cmd, hcmd⟩ := hcmd
    have hty : ty ≠ .openCode := by
      intro h
      rw [h] at hcmd
      simp [getAgentCliCommand] at hcmd
    unfold agentConnect
    cases ty with
    | openCode => exact absurd rfl hty
    | claudeCode =>
      simp only [hf, hc, hcmd, hnew, Bool.not_true, Bool.false_eq_true,
        if_false, createSession, spawnInSession, lookupSession_insert,
        ptySpawn, hspawn]
      refine ⟨by trivial, ?_⟩
      exact lookupSession_update _ _ _ (by rw [lookupSession_insert]; rfl)
    | codex =>
      simp only [hf, hc, hcmd, hnew, Bool.not_true, Bool.false_eq_true,
        if_false, createSession, spawnInSession, lookupSession_insert,
        ptySpawn, hspawn]
      refine ⟨by trivial, ?_⟩
      exact lookupSession_update _ _ _ (by rw [lookupSession_insert]; rfl)

/-- Witness for C2 amended: the spawn-failure branch at a concrete
environment leaves the created session in the registry. -/
theorem C2_connect_registry_witness :
    lookupSession (agentConnect ⟨true, false, false, false, false, true, false⟩
      ⟨.ok (), .error "wboom", .ok (), .ok ()⟩ 3 .claudeCode "/w"
      ⟨none, false, ""⟩ []).registry (sessionIdFor .claudeCode 3) =
      some ⟨sessionIdFor .claudeCode 3, false⟩ :=
  ((C2_connect_registry ⟨true, false, false, false, false, true, false⟩
      ⟨.ok (), .error "wboom", .ok (), .ok ()⟩ 3 .claudeCode "/w"
      ⟨none, false, ""⟩ []).2.2.2.2 "wboom" (by decide) (by decide)
      ⟨"claude", rfl⟩ rfl rfl).2

/-! ## C3: a second connect -/

/-- C3 counterexample: with a session already stored as current, a second
connect (all external checks passing) is accepted, returns the new session
and silently replaces the stored one, contradicting the claim that it is
rejected and the existing session kept. -/
theorem C3_cex :
    (agentConnect ⟨true, false, false, false, false, true, false⟩
      ⟨.ok (), .ok (), .ok (), .ok ()⟩ 1 .claudeCode "/tmp"
      ⟨some ⟨"old", .claudeCode, "/a", true, none⟩, false, ""⟩ []).result =
      .ok ⟨"agent_claude_1", .claudeCode, "/tmp", true, some "Connected"⟩ ∧
    (agentConnect ⟨true, false, false, false, false, true, false⟩
      ⟨.ok (), .ok (), .ok (), .ok ()⟩ 1 .claudeCode "/tmp"
      ⟨some ⟨"old", .claudeCode, "/a", true, none⟩, false, ""⟩
      []).agent.currentSession =
      some ⟨"agent_claude_1", .claudeCode, "/tmp", true, some "Connected"⟩ ∧
    (some (⟨"agent_claude_1", .claudeCode, "/tmp", true, some "Connected"⟩ :
        AgentSession) ≠
      some (⟨"old", .claudeCode, "/a", true, none⟩ : AgentSession)) := by
  decide

/-- C3 amended: a second connect is not rejected: connect never reads the
stored session (its result and registry effect are identical for any two
starting AgentManager states), and whenever it returns Ok it has replaced
the stored current session with the newly built one. -/
theorem C3_second_connect (env : CredEnv) (os : ConnectOs) (millis : Nat)
    (ty : AgentType) (cwd : String) (st st2 : AgentManagerState) (r : Registry) :
    (∀ sess, (agentConnect env os millis ty cwd st r).result = .ok sess →
      (agentConnect env os millis ty cwd st r).agent.currentSession = some sess) ∧
    (agentConnect env os millis ty cwd st r).result =
      (agentConnect env os millis ty cwd st2 r).result ∧
    (agentConnect env os millis ty cwd st r).registry =
      (agentConnect env os millis ty cwd st2 r).registry := by
  unfold agentConnect
  cases hf : (checkCredentials env ty).found
  · simp [hf]
  · cases hc : (checkCredentials env ty).cliAvailable
    · simp [hf, hc]
    · rcases hcmd : getAgentCliCommand env ty with e | cmd
      · simp [hf, hc, hcmd]
      · have hty : ty ≠ .openCode := by
          intro h
          rw [h] at hcmd
          simp [getAgentCliCommand] at hcmd
        rcases hnew : os.osNew with e2 | u2
        · simp [hf, hc, hcmd, hnew, createSession]
        · cases ty with
          | openCode => exact absurd rfl hty
          | claudeCode =>
            simp only [hf, hc, hcmd, hnew, Bool.not_true, Bool.false_eq_true,
              if_false, createSession, spawnInSession, lookupSession_insert,
              ptySpawn]
            rcases hspawn : os.osSpawn with e3 | u3
            · simp [hspawn]
            · rcases hclone : os.osClone with e4 | u4
              · simp [hclone]
              · rcases hemit : os.osEmit with e5 | u5
                · simp [hemit]
                · simp only [hemit]
                  refine ⟨?_, by trivial, by trivial⟩
                  intro sess hs
                  simp at hs
                  rw [← hs]
          | codex =>
            simp only [hf, hc, hcmd, hnew, Bool.not_true, Bool.false_eq_true,
              if_false, createSession, spawnInSession, lookupSession_insert,
              ptySpawn]
            rcases hspawn : os.osSpawn with e3 | u3
            · simp [hspawn]
            · rcases hclone : os.osClone with e4 | u4
              · simp [hclone]
              · rcases hemit : os.osEmit with e5 | u5
                · simp [hemit]
                · simp only [hemit]
                  refine ⟨?_, by trivial, by trivial⟩
                  intro sess hs
                  simp at hs
                  rw [← hs]

/-- Witness for C3 amended: an accepted connect stores the session it
returns. -/
theorem C3_second_connect_witness :
    (agentConnect ⟨true, false, false, false, false, true, false⟩
      ⟨.ok (), .ok (), .ok (), .ok ()⟩ 7 .claudeCode "/w3"
      ⟨some ⟨"old", .claudeCode, "/a", true, none⟩, false, ""⟩
      []).agent.currentSession =
      some ⟨"agent_claude_7", .claudeCode, "/w3", true, some "Connected"⟩ :=
  (C3_second_connect ⟨true, false, false, false, false, true, false⟩
      ⟨.ok (), .ok (), .ok (), .ok ()⟩ 7 .claudeCode "/w3"
      ⟨some ⟨"old", .claudeCode, "/a", true, none⟩, false, ""⟩
      ⟨none, false, ""⟩ []).1
    ⟨"agent_claude_7", .claudeCode, "/w3", true, some "Connected"⟩ (by decide)

/-! ## C4: send_message contract -/

/-- C4: send_message fails with NoActiveSession ("No active agent
session") when no session is current, fails with AlreadyStreaming
("Already processing a message") when the streaming flag is true — leaving
the buffer unchanged and emitting nothing — and on acceptance (session
current, not streaming, PTY write and emission succeeding) clears the
buffer, sets streaming true, writes exactly the text followed by one
newline, and emits exactly one message-start event. -/
theorem C4_send_message (message : String) (osWrite osEmit : Except String Unit)
    (st : AgentManagerState) (r : Registry) :
    (st.currentSession = none →
      agentSendMessage message osWrite osEmit st r =
        ⟨.error "No active agent session", st, none, []⟩) ∧
    (∀ s, st.currentSession = some s → st.streaming = true →
      agentSendMessage message osWrite osEmit st r =
        ⟨.error "Already processing a message", st, none, []⟩) ∧
    (∀ s p, st.currentSession = some s → st.streaming = false →
      lookupSession r s.id = some p → osWrite = .ok () → osEmit = .ok () →
      agentSendMessage message osWrite osEmit st r =
        ⟨.ok (), ⟨some s, true, ""⟩, some (message ++ "\n"),
         [bareEvent .messageStart]⟩) := by
  refine ⟨?_, ?_, ?_⟩
  · intro h
    unfold agentSendMessage
    rw [h]
  · intro s h hstr
    unfold agentSendMessage
    rw [h]
    simp [hstr]
  · intro s p h hstr hlook hw he
    unfold agentSendMessage
    rw [h]
    simp only [hstr, if_false, Bool.false_eq_true]
    simp [writeToSession, hlook, ptyWrite, hw, he]

/-- Witness for C4 at a concrete state and registry for all three branches. -/
theorem C4_send_message_witness :
    agentSendMessage "hi" (.ok ()) (.ok ())
      ⟨some ⟨"sid", .claudeCode, "/", true, none⟩, false, "old"⟩
      [("sid", ⟨"sid", false⟩)] =
      ⟨.ok (), ⟨some ⟨"sid", .claudeCode, "/", true, none⟩, true, ""⟩,
       some ("hi" ++ "\n"), [bareEvent .messageStart]⟩ :=
  (C4_send_message "hi" (.ok ()) (.ok ())
      ⟨some ⟨"sid", .claudeCode, "/", true, none⟩, false, "old"⟩
      [("sid", ⟨"sid", false⟩)]).2.2
    ⟨"sid", .claudeCode, "/", true, none⟩ ⟨"sid", false⟩ rfl rfl (by decide)
    rfl rfl

/-! ## C10: write failure mid-send -/

/-- C10: when send_message passes both guards but the PTY write fails, the
call returns the write error with streaming left true, the buffer left
cleared and no message-start emitted; every later send_message on that
state fails with AlreadyStreaming, while finish_response clears the
streaming flag again. -/
theorem C10_write_failure (message e : String)
    (osWrite osEmit osEmit2 : Except String Unit) (st : AgentManagerState)
    (r : Registry) (s : AgentSession) (h : st.currentSession = some s)
    (hstr : st.streaming = false)
    (hw : (writeToSession r s.id osWrite).result = .error e) :
    agentSendMessage message osWrite osEmit st r =
      ⟨.error e, ⟨some s, true, ""⟩, some (message ++ "\n"), []⟩ ∧
    (∀ m2 osW2 osE2 r2,
      agentSendMessage m2 osW2 osE2 (⟨some s, true, ""⟩ : AgentManagerState) r2 =
        ⟨.error "Already processing a message", ⟨some s, true, ""⟩, none, []⟩) ∧
    (agentFinishResponse osEmit2 (⟨some s, true, ""⟩ : AgentManagerState)).agent =
      ⟨some s, false, ""⟩ := by
  refine ⟨?_, ?_, ?_⟩
  · unfold agentSendMessage
    rw [h]
    simp only [hstr, if_false, Bool.false_eq_true]
    simp [hw]
  · intro m2 osW2 osE2 r2
    unfold agentSendMessage
    simp
  · unfold agentFinishResponse
    rcases osEmit2 with e2 | u2 <;> rfl

/-- Witness for C10: a send whose PTY write fails (absent session id in
the registry) leaves streaming true, and the next send is rejected. -/
theorem C10_write_failure_witness :
    agentSendMessage "hi" (.ok ()) (.ok ())
      ⟨some ⟨"sid", .claudeCode, "/", true, none⟩, false, "old"⟩ [] =
      ⟨.error ("Session not found: " ++ "sid"),
       ⟨some ⟨"sid", .claudeCode, "/", true, none⟩, true, ""⟩,
       some ("hi" ++ "\n"), []⟩ ∧
    agentSendMessage "again" (.ok ()) (.ok ())
      (⟨some ⟨"sid", .claudeCode, "/", true, none⟩, true, ""⟩ :
        AgentManagerState) [] =
      ⟨.error "Already processing a message",
       ⟨some ⟨"sid", .claudeCode, "/", true, none⟩, true, ""⟩, none, []⟩ :=
  ⟨(C10_write_failure "hi" ("Session not found: " ++ "sid") (.ok ()) (.ok ())
      (.ok ()) ⟨some ⟨"sid", .claudeCode, "/", true, none⟩, false, "old"⟩ []
      ⟨"sid", .claudeCode, "/", true, none⟩ rfl rfl (by decide)).1,
   (C10_write_failure "hi" ("Session not found: " ++ "sid") (.ok ()) (.ok ())
      (.ok ()) ⟨some ⟨"sid", .claudeCode, "/", true, none⟩, false, "old"⟩ []
      ⟨"sid", .claudeCode, "/", true, none⟩ rfl rfl (by decide)).2.1
     "again" (.ok ()) (.ok ()) []⟩

end Planviz


